import Mathlib

/-!
Verification of the mos6510 CPU core (fazibear/mos6510rs) against its
natural-language specification.

The Rust sources are shallowly embedded as follows.  Machine integers are
modelled as `Nat`; wherever the Rust integer type truncates (an `as u8` /
`as u16` cast, a `& 0xff` / `& 0xffff` mask, or release-mode wrapping of
u8/u16 arithmetic, which the spec declares to be the intended semantics in
section 7), the embedding applies an explicit `% 256` / `% 65536` or the
literal bitmask from the source.  Where the source computes on `i16`/`i32`,
the embedding uses `Int` with the same wrap-around fixups.  The memory
collaborator (a `Box<dyn Memory>` for the CPU) is a function `Nat → Nat`
whose reads are masked to one byte, modelling the trait's `u8` return type.
A Rust `panic!` is modelled by returning `none`, so fallible operations
return `Option`.
-/

namespace Mos6510

/-- Addressing modes, from src/mode.rs. -/
inductive Mode where
  | Accumulator
  | Immediate
  | ZeroPage
  | ZeroPageX
  | ZeroPageY
  | Relative
  | Absolute
  | AbsoluteX
  | AbsoluteY
  | Indirect
  | XIndirect
  | IndirectY
  | Implied
  | Unknown
deriving DecidableEq

/-- The 56 instruction kinds, from src/instruction.rs. -/
inductive Instruction where
  | AddWithCarry               -- ADC
  | AndWithAccumulator         -- AND
  | ArithmeticShiftLeft        -- ASL
  | BranchIfCarryClear         -- BCC
  | BranchIfCarrySet           -- BCS
  | BranchIfEqual              -- BEQ
  | BitSet                     -- BIT
  | BranchIfMinus              -- BMI
  | BranchIfNotEqual           -- BNE
  | BranchIfPlus               -- BPL
  | Break                      -- BRK
  | BranchIfOverflowClear      -- BVC
  | BranchIfOverflowSet        -- BVS
  | ClearCarry                 -- CLC
  | ClearDecimal               -- CLD
  | ClearInterrupt             -- CLI
  | ClearOverflow              -- CLV
  | CompareWithAccumulator     -- CMP
  | CompareWithX               -- CPX
  | CompareWithY               -- CPY
  | Decrement                  -- DEC
  | DecrementX                 -- DEX
  | DecrementY                 -- DEY
  | ExclusiveOrWithAccumulator -- EOR
  | Increment                  -- INC
  | IncrementX                 -- INX
  | IncrementY                 -- INY
  | Jump                       -- JMP
  | JumpSubroutine             -- JSR
  | LoadAccumulator            -- LDA
  | LoadX                      -- LDX
  | LoadY                      -- LDY
  | LogicalShiftRight          -- LSR
  | NoOperation                -- NOP
  | OrWithAccumulator          -- ORA
  | PushAccumulator            -- PHA
  | PushProcessorStatus        -- PHP
  | PullAccumulator            -- PLA
  | PullProcessorStatus        -- PLP
  | RotateLeft                 -- ROL
  | RotateRight                -- ROR
  | ReturnFromInterrupt        -- RTI
  | ReturnFromSubroutine       -- RTS
  | SubtractWithCarry          -- SBC
  | SetCarry                   -- SEC
  | SetDecimal                 -- SED
  | SetInterruptDisable        -- SEI
  | StoreAccumulator           -- STA
  | StoreX                     -- STX
  | StoreY                     -- STY
  | TransferAccumulatorToX     -- TAX
  | TransferAccumulatorToY     -- TAY
  | TransferStackPointerToX    -- TSX
  | TransferXToAccumulator     -- TXA
  | TransferXToStackPointer    -- TXS
  | TransferYToAccumulator     -- TYA
deriving DecidableEq

/-- The eight status flags, from src/status_flags.rs. -/
structure StatusFlags where
  carry : Bool
  zero : Bool
  interrupt : Bool
  decimal : Bool
  brk : Bool
  ignored : Bool
  overflow : Bool
  negative : Bool
deriving DecidableEq

/-- StatusFlags::new, from src/status_flags.rs. -/
def StatusFlags.new : StatusFlags where
  carry := false
  zero := false
  interrupt := false
  decimal := false
  brk := false
  ignored := false
  overflow := false
  negative := false

/-- StatusFlags::to_byte, from src/status_flags.rs. -/
def StatusFlags.to_byte (f : StatusFlags) : Nat :=
  let byte := 0x00
  let byte := if f.carry then byte ||| 0x01 else byte
  let byte := if f.zero then byte ||| 0x02 else byte
  let byte := if f.interrupt then byte ||| 0x04 else byte
  let byte := if f.decimal then byte ||| 0x08 else byte
  let byte := if f.brk then byte ||| 0x10 else byte
  let byte := if f.ignored then byte ||| 0x20 else byte
  let byte := if f.overflow then byte ||| 0x40 else byte
  let byte := if f.negative then byte ||| 0x80 else byte
  byte

/-- StatusFlags::from_byte, from src/status_flags.rs.  The Rust method takes
an ignored receiver (`&self`) and builds a fresh value from the byte. -/
def StatusFlags.from_byte (_ : StatusFlags) (byte : Nat) : StatusFlags where
  carry := byte &&& 0x01 != 0
  zero := byte &&& 0x02 != 0
  interrupt := byte &&& 0x04 != 0
  decimal := byte &&& 0x08 != 0
  brk := byte &&& 0x10 != 0
  ignored := byte &&& 0x20 != 0
  overflow := byte &&& 0x40 != 0
  negative := byte &&& 0x80 != 0

/-- The register file, from src/registers.rs. -/
structure Registers where
  program_counter : Nat
  stack_pointer : Nat
  accumulator : Nat
  x : Nat
  y : Nat
deriving DecidableEq

/-- Registers::new, from src/registers.rs. -/
def Registers.new : Registers where
  program_counter := 0x00
  stack_pointer := 0xff
  accumulator := 0x00
  x := 0x00
  y := 0x00

/-- The CPU state, from src/lib.rs.  The opcode table field is modelled
separately by `decode` below (see its doc comment). -/
structure CPU where
  registers : Registers
  status_flags : StatusFlags
  memory : Nat → Nat
  cycles : Nat

/-- CPU::read_byte, from src/lib.rs: delegates to the memory collaborator.
The address is a u16 and the result a u8, hence the two masks. -/
def CPU.read_byte (cpu : CPU) (address : Nat) : Nat :=
  cpu.memory (address % 65536) % 256

/-- CPU::write_memory, from src/lib.rs: delegates to the memory collaborator.
The address is a u16 and the value a u8, hence the two masks. -/
def CPU.write_memory (cpu : CPU) (address : Nat) (value : Nat) : CPU :=
  { cpu with memory := fun a => if a = address % 65536 then value % 256 else cpu.memory a }

/-- CPU::increment_pc, from src/lib.rs: pc becomes (pc + 1) & 0xffff. -/
def CPU.increment_pc (cpu : CPU) : CPU :=
  { cpu with registers :=
      { cpu.registers with program_counter := (cpu.registers.program_counter + 1) &&& 0xffff } }

/-- CPU::read_byte_and_increment_pc, from src/lib.rs. -/
def CPU.read_byte_and_increment_pc (cpu : CPU) : Nat × CPU :=
  (cpu.read_byte cpu.registers.program_counter, cpu.increment_pc)

/-- CPU::read_word, from src/lib.rs: little-endian word read. -/
def CPU.read_word (cpu : CPU) (address : Nat) : Nat :=
  cpu.read_byte address ||| (cpu.read_byte ((address + 1) % 65536) <<< 8)

/-- CPU::push, from src/lib.rs.  Writes to 0x100 + SP, then decrements SP
only when it is positive (a saturating, not modular, update). -/
def CPU.push (cpu : CPU) (value : Nat) : CPU :=
  let cpu := cpu.write_memory (0x100 + cpu.registers.stack_pointer) value
  if cpu.registers.stack_pointer > 0 then
    { cpu with registers :=
        { cpu.registers with stack_pointer := cpu.registers.stack_pointer - 1 } }
  else
    cpu

/-- CPU::pop, from src/lib.rs.  Increments SP only when it is below 0xff (a
saturating, not modular, update), then reads from 0x100 + SP. -/
def CPU.pop (cpu : CPU) : Nat × CPU :=
  let cpu :=
    if cpu.registers.stack_pointer < 0xff then
      { cpu with registers :=
          { cpu.registers with stack_pointer := cpu.registers.stack_pointer + 1 } }
    else
      cpu
  (cpu.read_byte (0x100 + cpu.registers.stack_pointer), cpu)

/-- CPU::get_address, from src/lib.rs: the read-path addressing-mode
resolver.  Returns the operand byte together with the updated CPU; the
unimplemented modes (Relative, Indirect, Unknown) panic in the source and
yield `none` here. -/
def CPU.get_address (cpu : CPU) (mode : Mode) : Option (Nat × CPU) :=
  match mode with
  | Mode.Implied =>
    let cpu := { cpu with cycles := cpu.cycles + 2 }
    some (0, cpu)
  | Mode.Immediate =>
    let cpu := { cpu with cycles := cpu.cycles + 2 }
    let (v, cpu) := cpu.read_byte_and_increment_pc
    some (v, cpu)
  | Mode.Absolute =>
    let cpu := { cpu with cycles := cpu.cycles + 4 }
    let (lo, cpu) := cpu.read_byte_and_increment_pc
    let (hi, cpu) := cpu.read_byte_and_increment_pc
    let address := lo ||| (hi <<< 8)
    some (cpu.read_byte address, cpu)
  | Mode.AbsoluteX =>
    let cpu := { cpu with cycles := cpu.cycles + 4 }
    let (lo, cpu) := cpu.read_byte_and_increment_pc
    let (hi, cpu) := cpu.read_byte_and_increment_pc
    let address := lo ||| (hi <<< 8)
    let address2 := (address + cpu.registers.x) % 65536
    let cpu :=
      if (address2 &&& 0xff00) != (address &&& 0xff00) then
        { cpu with cycles := cpu.cycles + 1 }
      else cpu
    some (cpu.read_byte address2, cpu)
  | Mode.AbsoluteY =>
    let cpu := { cpu with cycles := cpu.cycles + 4 }
    let (lo, cpu) := cpu.read_byte_and_increment_pc
    let (hi, cpu) := cpu.read_byte_and_increment_pc
    let address := lo ||| (hi <<< 8)
    let address2 := (address + cpu.registers.y) % 65536
    let cpu :=
      if (address2 &&& 0xff00) != (address &&& 0xff00) then
        { cpu with cycles := cpu.cycles + 1 }
      else cpu
    some (cpu.read_byte address2, cpu)
  | Mode.ZeroPage =>
    let cpu := { cpu with cycles := cpu.cycles + 3 }
    let (address, cpu) := cpu.read_byte_and_increment_pc
    some (cpu.read_byte address, cpu)
  | Mode.ZeroPageX =>
    let cpu := { cpu with cycles := cpu.cycles + 4 }
    let (imm, cpu) := cpu.read_byte_and_increment_pc
    let address := imm + cpu.registers.x
    some (cpu.read_byte (address &&& 0xff), cpu)
  | Mode.ZeroPageY =>
    let cpu := { cpu with cycles := cpu.cycles + 4 }
    let (imm, cpu) := cpu.read_byte_and_increment_pc
    let address := imm + cpu.registers.y
    some (cpu.read_byte (address &&& 0xff), cpu)
  | Mode.IndirectY =>
    let cpu := { cpu with cycles := cpu.cycles + 5 }
    let (address, cpu) := cpu.read_byte_and_increment_pc
    let address2 := cpu.read_byte address ||| (cpu.read_byte ((address + 1) &&& 0xff) <<< 8)
    let address := (address2 + cpu.registers.y) % 65536
    let cpu :=
      if (address2 &&& 0xff00) != (address &&& 0xff00) then
        { cpu with cycles := cpu.cycles + 1 }
      else cpu
    some (cpu.read_byte address, cpu)
  | Mode.XIndirect =>
    let cpu := { cpu with cycles := cpu.cycles + 6 }
    let (imm, cpu) := cpu.read_byte_and_increment_pc
    let address := imm + cpu.registers.x
    let address2 := cpu.read_byte (address &&& 0xff)
    let address := address + 1
    let address2 := address2 ||| (cpu.read_byte (address &&& 0xff) <<< 8)
    some (cpu.read_byte address2, cpu)
  | Mode.Accumulator =>
    let cpu := { cpu with cycles := cpu.cycles + 2 }
    some (cpu.registers.accumulator, cpu)
  | _ => none

/-- CPU::set_address, from src/lib.rs: the write-back path used by
read-modify-write instructions.  It re-reads the operand bytes from pc - 1
and pc - 2 (u16 subtraction, modelled with the + 65536 offset).  The value
parameter is a u8, hence the mask on the Accumulator store.  Unimplemented
modes panic in the source and yield `none` here. -/
def CPU.set_address (cpu : CPU) (mode : Mode) (value : Nat) : Option CPU :=
  match mode with
  | Mode.Absolute =>
    let cpu := { cpu with cycles := cpu.cycles + 2 }
    let address := cpu.read_byte ((cpu.registers.program_counter + 65536 - 2) % 65536)
      ||| (cpu.read_byte ((cpu.registers.program_counter + 65536 - 1) % 65536) <<< 8)
    some (cpu.write_memory address value)
  | Mode.AbsoluteX =>
    let cpu := { cpu with cycles := cpu.cycles + 3 }
    let address := cpu.read_byte ((cpu.registers.program_counter + 65536 - 2) % 65536)
      ||| (cpu.read_byte ((cpu.registers.program_counter + 65536 - 1) % 65536) <<< 8)
    let address2 := (address + cpu.registers.x) % 65536
    let cpu :=
      if (address2 &&& 0xff00) != (address &&& 0xff00) then
        { cpu with cycles := cpu.cycles - 1 }
      else cpu
    some (cpu.write_memory address2 value)
  | Mode.ZeroPage =>
    let cpu := { cpu with cycles := cpu.cycles + 2 }
    let address := cpu.read_byte ((cpu.registers.program_counter + 65536 - 1) % 65536)
    some (cpu.write_memory address value)
  | Mode.ZeroPageX =>
    let cpu := { cpu with cycles := cpu.cycles + 2 }
    let address := cpu.read_byte ((cpu.registers.program_counter + 65536 - 1) % 65536)
      + cpu.registers.x
    some (cpu.write_memory (address &&& 0xff) value)
  | Mode.Accumulator =>
    some { cpu with registers := { cpu.registers with accumulator := value % 256 } }
  | _ => none

/-- CPU::put_address, from src/lib.rs: the store path used by STA/STX/STY.
It consumes the operand bytes from the instruction stream.  The value
parameter is a u8, hence the mask on the Accumulator store.  Unimplemented
modes panic in the source and yield `none` here. -/
def CPU.put_address (cpu : CPU) (mode : Mode) (value : Nat) : Option CPU :=
  match mode with
  | Mode.Absolute =>
    let cpu := { cpu with cycles := cpu.cycles + 4 }
    let (lo, cpu) := cpu.read_byte_and_increment_pc
    let (hi, cpu) := cpu.read_byte_and_increment_pc
    let address := lo ||| (hi <<< 8)
    some (cpu.write_memory address value)
  | Mode.AbsoluteX =>
    let cpu := { cpu with cycles := cpu.cycles + 4 }
    let (lo, cpu) := cpu.read_byte_and_increment_pc
    let (hi, cpu) := cpu.read_byte_and_increment_pc
    let address := lo ||| (hi <<< 8)
    let address2 := (address + cpu.registers.x) % 65536
    some (cpu.write_memory address2 value)
  | Mode.AbsoluteY =>
    let cpu := { cpu with cycles := cpu.cycles + 4 }
    let (lo, cpu) := cpu.read_byte_and_increment_pc
    let (hi, cpu) := cpu.read_byte_and_increment_pc
    let address := lo ||| (hi <<< 8)
    let address2 := (address + cpu.registers.y) % 65536
    let cpu :=
      if (address2 &&& 0xff00) != (address &&& 0xff00) then
        { cpu with cycles := cpu.cycles + 1 }
      else cpu
    some (cpu.write_memory address2 value)
  | Mode.ZeroPage =>
    let cpu := { cpu with cycles := cpu.cycles + 3 }
    let (address, cpu) := cpu.read_byte_and_increment_pc
    some (cpu.write_memory address value)
  | Mode.ZeroPageX =>
    let cpu := { cpu with cycles := cpu.cycles + 4 }
    let (imm, cpu) := cpu.read_byte_and_increment_pc
    let address := imm + cpu.registers.x
    some (cpu.write_memory (address &&& 0xff) value)
  | Mode.ZeroPageY =>
    let cpu := { cpu with cycles := cpu.cycles + 4 }
    let (imm, cpu) := cpu.read_byte_and_increment_pc
    let address := imm + cpu.registers.y
    some (cpu.write_memory (address &&& 0xff) value)
  | Mode.XIndirect =>
    let cpu := { cpu with cycles := cpu.cycles + 6 }
    let (imm, cpu) := cpu.read_byte_and_increment_pc
    let address := imm + cpu.registers.x
    let address2 := cpu.read_byte (address &&& 0xff)
    let address := address + 1
    let address2 := address2 ||| (cpu.read_byte (address &&& 0xff) <<< 8)
    some (cpu.write_memory address2 value)
  | Mode.IndirectY =>
    let cpu := { cpu with cycles := cpu.cycles + 5 }
    let (imm, cpu) := cpu.read_byte_and_increment_pc
    let address2 := cpu.read_byte imm ||| (cpu.read_byte ((imm + 1) &&& 0xff) <<< 8)
    let address := (address2 + cpu.registers.y) % 65536
    some (cpu.write_memory address value)
  | Mode.Accumulator =>
    some { cpu with registers := { cpu.registers with accumulator := value % 256 } }
  | _ => none

/-- CPU::branch, from src/lib.rs.  The offset byte is fetched through
get_address(Immediate), which always succeeds; the source computes the sign
fixup as dist = -((!dist & 0xff) + 1) on i32, which for a byte d with bit 7
set equals d - 256. -/
def CPU.branch (cpu : CPU) (condition : Bool) : CPU :=
  match cpu.get_address Mode.Immediate with
  | none => cpu
  | some (d, cpu) =>
    let dist : Int := if d &&& 0x80 != 0 then (d : Int) - 256 else (d : Int)
    let tmp : Int := (cpu.registers.program_counter : Int) + dist
    let tmp : Int := if tmp < 0 then tmp + 65536 else tmp
    let tmp : Nat := tmp.toNat &&& 0xffff
    if condition then
      let cpu :=
        if (cpu.registers.program_counter &&& 0x100) != (tmp &&& 0x100) then
          { cpu with cycles := cpu.cycles + 1 }
        else cpu
      { cpu with registers := { cpu.registers with program_counter := tmp } }
    else
      cpu

/-- The instruction dispatch of CPU::step, from src/lib.rs (the big match on
the decoded instruction).  A `none` result models the panics of the source:
the catch-all arm (reached by RotateRight, which has no arm of its own) and
the unimplemented addressing modes inside get/set/put_address and Jump. -/
def CPU.execute (cpu : CPU) (instruction : Instruction) (mode : Mode) : Option CPU :=
  match instruction with
  | Instruction.AddWithCarry =>
    match cpu.get_address mode with
    | none => none
    | some (m, cpu) =>
      let tmp := cpu.registers.accumulator + m + cpu.status_flags.carry.toNat
      let f := cpu.status_flags
      let f := { f with carry := tmp &&& 0x100 != 0 }
      let f := { f with zero := cpu.registers.accumulator == 0 }
      let f := { f with negative := cpu.registers.accumulator &&& 0x80 != 0 }
      let f := { f with overflow := (f.carry.toNat ^^^ f.negative.toNat) != 0 }
      some { cpu with status_flags := f }
  | Instruction.AndWithAccumulator =>
    match cpu.get_address mode with
    | none => none
    | some (m, cpu) =>
      let acc := cpu.registers.accumulator &&& m
      some { cpu with
        registers := { cpu.registers with accumulator := acc },
        status_flags := { cpu.status_flags with
          zero := acc == 0, negative := acc &&& 0x80 != 0 } }
  | Instruction.ArithmeticShiftLeft =>
    match cpu.get_address mode with
    | none => none
    | some (v, cpu) =>
      let tmp := v <<< 1
      match cpu.set_address mode (tmp % 256) with
      | none => none
      | some cpu =>
        some { cpu with status_flags := { cpu.status_flags with
          zero := tmp == 0,
          negative := tmp &&& 0x80 != 0,
          carry := tmp &&& 0x100 != 0 } }
  | Instruction.BranchIfCarryClear =>
    some (cpu.branch !cpu.status_flags.carry)
  | Instruction.BranchIfCarrySet =>
    some (cpu.branch cpu.status_flags.carry)
  | Instruction.BranchIfEqual =>
    some (cpu.branch cpu.status_flags.zero)
  | Instruction.BranchIfMinus =>
    some (cpu.branch cpu.status_flags.negative)
  | Instruction.BranchIfNotEqual =>
    some (cpu.branch !cpu.status_flags.zero)
  | Instruction.BranchIfPlus =>
    some (cpu.branch !cpu.status_flags.negative)
  | Instruction.BranchIfOverflowClear =>
    some (cpu.branch !cpu.status_flags.overflow)
  | Instruction.BranchIfOverflowSet =>
    some (cpu.branch cpu.status_flags.overflow)
  | Instruction.BitSet =>
    match cpu.get_address mode with
    | none => none
    | some (m, cpu) =>
      some { cpu with status_flags := { cpu.status_flags with
        zero := (cpu.registers.accumulator &&& m) == 0,
        negative := m &&& 0x80 != 0,
        overflow := m &&& 0x40 != 0 } }
  | Instruction.Break =>
    some { cpu with registers := { cpu.registers with program_counter := 0 } }
  | Instruction.ClearCarry =>
    some { cpu with
      cycles := cpu.cycles + 2,
      status_flags := { cpu.status_flags with carry := false } }
  | Instruction.ClearDecimal =>
    some { cpu with
      cycles := cpu.cycles + 2,
      status_flags := { cpu.status_flags with decimal := false } }
  | Instruction.ClearInterrupt =>
    some { cpu with
      cycles := cpu.cycles + 2,
      status_flags := { cpu.status_flags with interrupt := false } }
  | Instruction.ClearOverflow =>
    some { cpu with
      cycles := cpu.cycles + 2,
      status_flags := { cpu.status_flags with overflow := false } }
  | Instruction.CompareWithAccumulator =>
    match cpu.get_address mode with
    | none => none
    | some (m, cpu) =>
      let tmp2 : Int := (cpu.registers.accumulator : Int) - (m : Int)
      let tmp2 : Int := if tmp2 < 0 then tmp2 + 256 else tmp2
      some { cpu with status_flags := { cpu.status_flags with
        zero := tmp2 == 0,
        negative := tmp2.toNat &&& 0x80 != 0,
        carry := decide (m ≤ cpu.registers.accumulator) } }
  | Instruction.CompareWithX =>
    match cpu.get_address mode with
    | none => none
    | some (m, cpu) =>
      let tmp2 : Int := (cpu.registers.x : Int) - (m : Int)
      let tmp2 : Int := if tmp2 < 0 then tmp2 + 256 else tmp2
      some { cpu with status_flags := { cpu.status_flags with
        zero := tmp2 == 0,
        negative := tmp2.toNat &&& 0x80 != 0,
        carry := decide (m ≤ cpu.registers.x) } }
  | Instruction.CompareWithY =>
    match cpu.get_address mode with
    | none => none
    | some (m, cpu) =>
      let tmp2 : Int := (cpu.registers.y : Int) - (m : Int)
      let tmp2 : Int := if tmp2 < 0 then tmp2 + 256 else tmp2
      some { cpu with status_flags := { cpu.status_flags with
        zero := tmp2 == 0,
        negative := tmp2.toNat &&& 0x80 != 0,
        carry := decide (m ≤ cpu.registers.y) } }
  | Instruction.Decrement =>
    match cpu.get_address mode with
    | none => none
    | some (v, cpu) =>
      let tmp : Int := (v : Int) - 1
      let tmp : Int := if tmp < 0 then tmp + 256 else tmp
      match cpu.set_address mode (tmp.toNat % 256) with
      | none => none
      | some cpu =>
        some { cpu with status_flags := { cpu.status_flags with
          zero := tmp == 0, negative := tmp.toNat &&& 0x80 != 0 } }
  | Instruction.DecrementX =>
    let cpu := { cpu with cycles := cpu.cycles + 2 }
    let tmp : Int := (cpu.registers.x : Int) - 1
    let tmp : Int := if tmp < 0 then tmp + 256 else tmp
    some { cpu with
      registers := { cpu.registers with x := tmp.toNat % 256 },
      status_flags := { cpu.status_flags with
        zero := tmp == 0, negative := tmp.toNat &&& 0x80 != 0 } }
  | Instruction.DecrementY =>
    let cpu := { cpu with cycles := cpu.cycles + 2 }
    let tmp : Int := (cpu.registers.y : Int) - 1
    let tmp : Int := if tmp < 0 then tmp + 256 else tmp
    some { cpu with
      registers := { cpu.registers with y := tmp.toNat % 256 },
      status_flags := { cpu.status_flags with
        zero := tmp == 0, negative := tmp.toNat &&& 0x80 != 0 } }
  | Instruction.ExclusiveOrWithAccumulator =>
    match cpu.get_address mode with
    | none => none
    | some (m, cpu) =>
      let acc := cpu.registers.accumulator ^^^ m
      some { cpu with
        registers := { cpu.registers with accumulator := acc },
        status_flags := { cpu.status_flags with
          zero := acc == 0, negative := acc &&& 0x80 != 0 } }
  | Instruction.Increment =>
    match cpu.get_address mode with
    | none => none
    | some (v, cpu) =>
      let tmp := v + 1
      let tmp := if tmp > 255 then tmp - 256 else tmp
      match cpu.set_address mode (tmp % 256) with
      | none => none
      | some cpu =>
        some { cpu with status_flags := { cpu.status_flags with
          zero := tmp == 0, negative := tmp &&& 0x80 != 0 } }
  | Instruction.IncrementX =>
    let cpu := { cpu with cycles := cpu.cycles + 2 }
    let tmp := cpu.registers.x + 1
    let tmp := if tmp > 255 then tmp - 256 else tmp
    let tmp := tmp &&& 0xff
    some { cpu with
      registers := { cpu.registers with x := tmp % 256 },
      status_flags := { cpu.status_flags with
        zero := tmp == 0, negative := tmp &&& 0x80 != 0 } }
  | Instruction.IncrementY =>
    let cpu := { cpu with cycles := cpu.cycles + 2 }
    let tmp := cpu.registers.y + 1
    let tmp := if tmp > 255 then tmp - 256 else tmp
    let tmp := tmp &&& 0xff
    some { cpu with
      registers := { cpu.registers with y := tmp % 256 },
      status_flags := { cpu.status_flags with
        zero := tmp == 0, negative := tmp &&& 0x80 != 0 } }
  | Instruction.Jump =>
    let cpu := { cpu with cycles := cpu.cycles + 3 }
    let (lo, cpu) := cpu.read_byte_and_increment_pc
    let (hi, cpu) := cpu.read_byte_and_increment_pc
    let tmp := lo ||| (hi <<< 8)
    match mode with
    | Mode.Absolute =>
      some { cpu with registers := { cpu.registers with program_counter := tmp } }
    | Mode.Indirect =>
      let pc := cpu.read_byte tmp ||| (cpu.read_byte ((tmp + 1) &&& 0xff) <<< 8)
      some { cpu with
        cycles := cpu.cycles + 2,
        registers := { cpu.registers with program_counter := pc } }
    | _ => none
  | Instruction.JumpSubroutine =>
    let cpu := { cpu with cycles := cpu.cycles + 6 }
    let cpu := cpu.push (((cpu.registers.program_counter + 1) &&& 0xffff) >>> 8)
    let cpu := cpu.push ((cpu.registers.program_counter + 1) &&& 0xff)
    let (lo, cpu) := cpu.read_byte_and_increment_pc
    let (hi, cpu) := cpu.read_byte_and_increment_pc
    let tmp := lo ||| (hi <<< 8)
    some { cpu with registers := { cpu.registers with program_counter := tmp } }
  | Instruction.LoadAccumulator =>
    match cpu.get_address mode with
    | none => none
    | some (m, cpu) =>
      some { cpu with
        registers := { cpu.registers with accumulator := m },
        status_flags := { cpu.status_flags with
          zero := m == 0, negative := m &&& 0x80 != 0 } }
  | Instruction.LoadX =>
    match cpu.get_address mode with
    | none => none
    | some (m, cpu) =>
      some { cpu with
        registers := { cpu.registers with x := m },
        status_flags := { cpu.status_flags with
          zero := m == 0, negative := m &&& 0x80 != 0 } }
  | Instruction.LoadY =>
    match cpu.get_address mode with
    | none => none
    | some (m, cpu) =>
      some { cpu with
        registers := { cpu.registers with y := m },
        status_flags := { cpu.status_flags with
          zero := m == 0, negative := m &&& 0x80 != 0 } }
  | Instruction.LogicalShiftRight =>
    match cpu.get_address mode with
    | none => none
    | some (v, cpu) =>
      let tmp := v
      let tmp2 := (tmp >>> 1) &&& 0xff
      match cpu.set_address mode (tmp2 % 256) with
      | none => none
      | some cpu =>
        some { cpu with status_flags := { cpu.status_flags with
          zero := tmp2 == 0,
          negative := tmp2 &&& 0x80 != 0,
          carry := tmp &&& 0x01 != 0 } }
  | Instruction.NoOperation =>
    some { cpu with cycles := cpu.cycles + 2 }
  | Instruction.OrWithAccumulator =>
    match cpu.get_address mode with
    | none => none
    | some (m, cpu) =>
      let acc := cpu.registers.accumulator ||| m
      some { cpu with
        registers := { cpu.registers with accumulator := acc },
        status_flags := { cpu.status_flags with
          zero := acc == 0, negative := acc &&& 0x80 != 0 } }
  | Instruction.PushAccumulator =>
    let cpu := { cpu with cycles := cpu.cycles + 3 }
    some (cpu.push cpu.registers.accumulator)
  | Instruction.PushProcessorStatus =>
    let cpu := { cpu with cycles := cpu.cycles + 3 }
    some (cpu.push cpu.status_flags.to_byte)
  | Instruction.PullAccumulator =>
    let cpu := { cpu with cycles := cpu.cycles + 4 }
    let (v, cpu) := cpu.pop
    some { cpu with
      registers := { cpu.registers with accumulator := v },
      status_flags := { cpu.status_flags with
        zero := v == 0, negative := v &&& 0x80 != 0 } }
  | Instruction.PullProcessorStatus =>
    let cpu := { cpu with cycles := cpu.cycles + 4 }
    let (v, cpu) := cpu.pop
    some { cpu with status_flags := cpu.status_flags.from_byte v }
  | Instruction.RotateLeft =>
    match cpu.get_address mode with
    | none => none
    | some (v, cpu) =>
      let c := if cpu.status_flags.carry.toNat != 0 then 128 else 0
      let cpu := { cpu with status_flags :=
        { cpu.status_flags with carry := v &&& 1 == 1 } }
      let tmp := (v >>> 1) ||| c
      match cpu.set_address mode (tmp % 256) with
      | none => none
      | some cpu =>
        some { cpu with status_flags := { cpu.status_flags with
          zero := tmp == 0, negative := tmp &&& 0x80 != 0 } }
  | Instruction.RotateRight =>
    -- No arm in the source match: falls into the catch-all panic.
    none
  | Instruction.ReturnFromInterrupt =>
    let cpu := { cpu with cycles := cpu.cycles + 6 }
    let (lo, cpu) := cpu.pop
    let (hi, cpu) := cpu.pop
    let tmp := lo ||| (hi <<< 8)
    some { cpu with registers := { cpu.registers with program_counter := (tmp + 1) % 65536 } }
  | Instruction.ReturnFromSubroutine =>
    let cpu := { cpu with cycles := cpu.cycles + 6 }
    let (lo, cpu) := cpu.pop
    let (hi, cpu) := cpu.pop
    let tmp := lo ||| (hi <<< 8)
    some { cpu with registers := { cpu.registers with program_counter := (tmp + 1) % 65536 } }
  | Instruction.SubtractWithCarry =>
    match cpu.get_address mode with
    | none => none
    | some (m, cpu) =>
      let tmpv := m ^^^ 0xff
      let tmp2 := cpu.registers.accumulator + tmpv + cpu.status_flags.carry.toNat
      let carry := tmp2 &&& 0x100 != 0
      let acc := tmp2 &&& 0xff
      some { cpu with
        registers := { cpu.registers with accumulator := acc },
        status_flags := { cpu.status_flags with
          carry := carry,
          zero := acc == 0,
          negative := decide (127 < acc),
          overflow := (carry.toNat ^^^ acc) &&& 0x80 != 0 } }
  | Instruction.SetCarry =>
    some { cpu with
      cycles := cpu.cycles + 2,
      status_flags := { cpu.status_flags with carry := true } }
  | Instruction.SetDecimal =>
    some { cpu with
      cycles := cpu.cycles + 2,
      status_flags := { cpu.status_flags with decimal := true } }
  | Instruction.SetInterruptDisable =>
    some { cpu with
      cycles := cpu.cycles + 2,
      status_flags := { cpu.status_flags with interrupt := true } }
  | Instruction.StoreAccumulator =>
    cpu.put_address mode cpu.registers.accumulator
  | Instruction.StoreX =>
    cpu.put_address mode cpu.registers.x
  | Instruction.StoreY =>
    cpu.put_address mode cpu.registers.y
  | Instruction.TransferAccumulatorToX =>
    let cpu := { cpu with cycles := cpu.cycles + 2 }
    let v := cpu.registers.accumulator
    some { cpu with
      registers := { cpu.registers with x := v },
      status_flags := { cpu.status_flags with
        zero := v == 0, negative := v &&& 0x80 != 0 } }
  | Instruction.TransferAccumulatorToY =>
    let cpu := { cpu with cycles := cpu.cycles + 2 }
    let v := cpu.registers.accumulator
    some { cpu with
      registers := { cpu.registers with y := v },
      status_flags := { cpu.status_flags with
        zero := v == 0, negative := v &&& 0x80 != 0 } }
  | Instruction.TransferStackPointerToX =>
    let cpu := { cpu with cycles := cpu.cycles + 2 }
    let v := cpu.registers.stack_pointer
    some { cpu with
      registers := { cpu.registers with x := v },
      status_flags := { cpu.status_flags with
        zero := v == 0, negative := v &&& 0x80 != 0 } }
  | Instruction.TransferXToAccumulator =>
    let cpu := { cpu with cycles := cpu.cycles + 2 }
    let v := cpu.registers.x
    some { cpu with
      registers := { cpu.registers with accumulator := v },
      status_flags := { cpu.status_flags with
        zero := v == 0, negative := v &&& 0x80 != 0 } }
  | Instruction.TransferXToStackPointer =>
    let cpu := { cpu with cycles := cpu.cycles + 2 }
    some { cpu with registers := { cpu.registers with stack_pointer := cpu.registers.x } }
  | Instruction.TransferYToAccumulator =>
    let cpu := { cpu with cycles := cpu.cycles + 2 }
    let v := cpu.registers.y
    some { cpu with
      registers := { cpu.registers with accumulator := v },
      status_flags := { cpu.status_flags with
        zero := v == 0, negative := v &&& 0x80 != 0 } }

set_option maxRecDepth 4096 in
/-- Modelled from the spec: the opcode table.  src/lib.rs declares
`pub mod opcodes` and calls `self.opcodes.get(address)`, but opcodes.rs is
not among the provided sources.  Spec section 4.2 requires a fixed 256-entry
lookup matching the canonical 6502 opcode matrix for the 56 documented
instructions, with unassigned opcodes resolving to an invalid marker that
makes the step fail (section 7); that table is reproduced here, with `none`
as the invalid marker. -/
def decode (byte : Nat) : Option (Instruction × Mode) :=
  if byte = 0x00 then some (Instruction.Break, Mode.Implied) else
  if byte = 0x01 then some (Instruction.OrWithAccumulator, Mode.XIndirect) else
  if byte = 0x05 then some (Instruction.OrWithAccumulator, Mode.ZeroPage) else
  if byte = 0x06 then some (Instruction.ArithmeticShiftLeft, Mode.ZeroPage) else
  if byte = 0x08 then some (Instruction.PushProcessorStatus, Mode.Implied) else
  if byte = 0x09 then some (Instruction.OrWithAccumulator, Mode.Immediate) else
  if byte = 0x0a then some (Instruction.ArithmeticShiftLeft, Mode.Accumulator) else
  if byte = 0x0d then some (Instruction.OrWithAccumulator, Mode.Absolute) else
  if byte = 0x0e then some (Instruction.ArithmeticShiftLeft, Mode.Absolute) else
  if byte = 0x10 then some (Instruction.BranchIfPlus, Mode.Relative) else
  if byte = 0x11 then some (Instruction.OrWithAccumulator, Mode.IndirectY) else
  if byte = 0x15 then some (Instruction.OrWithAccumulator, Mode.ZeroPageX) else
  if byte = 0x16 then some (Instruction.ArithmeticShiftLeft, Mode.ZeroPageX) else
  if byte = 0x18 then some (Instruction.ClearCarry, Mode.Implied) else
  if byte = 0x19 then some (Instruction.OrWithAccumulator, Mode.AbsoluteY) else
  if byte = 0x1d then some (Instruction.OrWithAccumulator, Mode.AbsoluteX) else
  if byte = 0x1e then some (Instruction.ArithmeticShiftLeft, Mode.AbsoluteX) else
  if byte = 0x20 then some (Instruction.JumpSubroutine, Mode.Absolute) else
  if byte = 0x21 then some (Instruction.AndWithAccumulator, Mode.XIndirect) else
  if byte = 0x24 then some (Instruction.BitSet, Mode.ZeroPage) else
  if byte = 0x25 then some (Instruction.AndWithAccumulator, Mode.ZeroPage) else
  if byte = 0x26 then some (Instruction.RotateLeft, Mode.ZeroPage) else
  if byte = 0x28 then some (Instruction.PullProcessorStatus, Mode.Implied) else
  if byte = 0x29 then some (Instruction.AndWithAccumulator, Mode.Immediate) else
  if byte = 0x2a then some (Instruction.RotateLeft, Mode.Accumulator) else
  if byte = 0x2c then some (Instruction.BitSet, Mode.Absolute) else
  if byte = 0x2d then some (Instruction.AndWithAccumulator, Mode.Absolute) else
  if byte = 0x2e then some (Instruction.RotateLeft, Mode.Absolute) else
  if byte = 0x30 then some (Instruction.BranchIfMinus, Mode.Relative) else
  if byte = 0x31 then some (Instruction.AndWithAccumulator, Mode.IndirectY) else
  if byte = 0x35 then some (Instruction.AndWithAccumulator, Mode.ZeroPageX) else
  if byte = 0x36 then some (Instruction.RotateLeft, Mode.ZeroPageX) else
  if byte = 0x38 then some (Instruction.SetCarry, Mode.Implied) else
  if byte = 0x39 then some (Instruction.AndWithAccumulator, Mode.AbsoluteY) else
  if byte = 0x3d then some (Instruction.AndWithAccumulator, Mode.AbsoluteX) else
  if byte = 0x3e then some (Instruction.RotateLeft, Mode.AbsoluteX) else
  if byte = 0x40 then some (Instruction.ReturnFromInterrupt, Mode.Implied) else
  if byte = 0x41 then some (Instruction.ExclusiveOrWithAccumulator, Mode.XIndirect) else
  if byte = 0x45 then some (Instruction.ExclusiveOrWithAccumulator, Mode.ZeroPage) else
  if byte = 0x46 then some (Instruction.LogicalShiftRight, Mode.ZeroPage) else
  if byte = 0x48 then some (Instruction.PushAccumulator, Mode.Implied) else
  if byte = 0x49 then some (Instruction.ExclusiveOrWithAccumulator, Mode.Immediate) else
  if byte = 0x4a then some (Instruction.LogicalShiftRight, Mode.Accumulator) else
  if byte = 0x4c then some (Instruction.Jump, Mode.Absolute) else
  if byte = 0x4d then some (Instruction.ExclusiveOrWithAccumulator, Mode.Absolute) else
  if byte = 0x4e then some (Instruction.LogicalShiftRight, Mode.Absolute) else
  if byte = 0x50 then some (Instruction.BranchIfOverflowClear, Mode.Relative) else
  if byte = 0x51 then some (Instruction.ExclusiveOrWithAccumulator, Mode.IndirectY) else
  if byte = 0x55 then some (Instruction.ExclusiveOrWithAccumulator, Mode.ZeroPageX) else
  if byte = 0x56 then some (Instruction.LogicalShiftRight, Mode.ZeroPageX) else
  if byte = 0x58 then some (Instruction.ClearInterrupt, Mode.Implied) else
  if byte = 0x59 then some (Instruction.ExclusiveOrWithAccumulator, Mode.AbsoluteY) else
  if byte = 0x5d then some (Instruction.ExclusiveOrWithAccumulator, Mode.AbsoluteX) else
  if byte = 0x5e then some (Instruction.LogicalShiftRight, Mode.AbsoluteX) else
  if byte = 0x60 then some (Instruction.ReturnFromSubroutine, Mode.Implied) else
  if byte = 0x61 then some (Instruction.AddWithCarry, Mode.XIndirect) else
  if byte = 0x65 then some (Instruction.AddWithCarry, Mode.ZeroPage) else
  if byte = 0x66 then some (Instruction.RotateRight, Mode.ZeroPage) else
  if byte = 0x68 then some (Instruction.PullAccumulator, Mode.Implied) else
  if byte = 0x69 then some (Instruction.AddWithCarry, Mode.Immediate) else
  if byte = 0x6a then some (Instruction.RotateRight, Mode.Accumulator) else
  if byte = 0x6c then some (Instruction.Jump, Mode.Indirect) else
  if byte = 0x6d then some (Instruction.AddWithCarry, Mode.Absolute) else
  if byte = 0x6e then some (Instruction.RotateRight, Mode.Absolute) else
  if byte = 0x70 then some (Instruction.BranchIfOverflowSet, Mode.Relative) else
  if byte = 0x71 then some (Instruction.AddWithCarry, Mode.IndirectY) else
  if byte = 0x75 then some (Instruction.AddWithCarry, Mode.ZeroPageX) else
  if byte = 0x76 then some (Instruction.RotateRight, Mode.ZeroPageX) else
  if byte = 0x78 then some (Instruction.SetInterruptDisable, Mode.Implied) else
  if byte = 0x79 then some (Instruction.AddWithCarry, Mode.AbsoluteY) else
  if byte = 0x7d then some (Instruction.AddWithCarry, Mode.AbsoluteX) else
  if byte = 0x7e then some (Instruction.RotateRight, Mode.AbsoluteX) else
  if byte = 0x81 then some (Instruction.StoreAccumulator, Mode.XIndirect) else
  if byte = 0x84 then some (Instruction.StoreY, Mode.ZeroPage) else
  if byte = 0x85 then some (Instruction.StoreAccumulator, Mode.ZeroPage) else
  if byte = 0x86 then some (Instruction.StoreX, Mode.ZeroPage) else
  if byte = 0x88 then some (Instruction.DecrementY, Mode.Implied) else
  if byte = 0x8a then some (Instruction.TransferXToAccumulator, Mode.Implied) else
  if byte = 0x8c then some (Instruction.StoreY, Mode.Absolute) else
  if byte = 0x8d then some (Instruction.StoreAccumulator, Mode.Absolute) else
  if byte = 0x8e then some (Instruction.StoreX, Mode.Absolute) else
  if byte = 0x90 then some (Instruction.BranchIfCarryClear, Mode.Relative) else
  if byte = 0x91 then some (Instruction.StoreAccumulator, Mode.IndirectY) else
  if byte = 0x94 then some (Instruction.StoreY, Mode.ZeroPageX) else
  if byte = 0x95 then some (Instruction.StoreAccumulator, Mode.ZeroPageX) else
  if byte = 0x96 then some (Instruction.StoreX, Mode.ZeroPageY) else
  if byte = 0x98 then some (Instruction.TransferYToAccumulator, Mode.Implied) else
  if byte = 0x99 then some (Instruction.StoreAccumulator, Mode.AbsoluteY) else
  if byte = 0x9a then some (Instruction.TransferXToStackPointer, Mode.Implied) else
  if byte = 0x9d then some (Instruction.StoreAccumulator, Mode.AbsoluteX) else
  if byte = 0xa0 then some (Instruction.LoadY, Mode.Immediate) else
  if byte = 0xa1 then some (Instruction.LoadAccumulator, Mode.XIndirect) else
  if byte = 0xa2 then some (Instruction.LoadX, Mode.Immediate) else
  if byte = 0xa4 then some (Instruction.LoadY, Mode.ZeroPage) else
  if byte = 0xa5 then some (Instruction.LoadAccumulator, Mode.ZeroPage) else
  if byte = 0xa6 then some (Instruction.LoadX, Mode.ZeroPage) else
  if byte = 0xa8 then some (Instruction.TransferAccumulatorToY, Mode.Implied) else
  if byte = 0xa9 then some (Instruction.LoadAccumulator, Mode.Immediate) else
  if byte = 0xaa then some (Instruction.TransferAccumulatorToX, Mode.Implied) else
  if byte = 0xac then some (Instruction.LoadY, Mode.Absolute) else
  if byte = 0xad then some (Instruction.LoadAccumulator, Mode.Absolute) else
  if byte = 0xae then some (Instruction.LoadX, Mode.Absolute) else
  if byte = 0xb0 then some (Instruction.BranchIfCarrySet, Mode.Relative) else
  if byte = 0xb1 then some (Instruction.LoadAccumulator, Mode.IndirectY) else
  if byte = 0xb4 then some (Instruction.LoadY, Mode.ZeroPageX) else
  if byte = 0xb5 then some (Instruction.LoadAccumulator, Mode.ZeroPageX) else
  if byte = 0xb6 then some (Instruction.LoadX, Mode.ZeroPageY) else
  if byte = 0xb8 then some (Instruction.ClearOverflow, Mode.Implied) else
  if byte = 0xb9 then some (Instruction.LoadAccumulator, Mode.AbsoluteY) else
  if byte = 0xba then some (Instruction.TransferStackPointerToX, Mode.Implied) else
  if byte = 0xbc then some (Instruction.LoadY, Mode.AbsoluteX) else
  if byte = 0xbd then some (Instruction.LoadAccumulator, Mode.AbsoluteX) else
  if byte = 0xbe then some (Instruction.LoadX, Mode.AbsoluteY) else
  if byte = 0xc0 then some (Instruction.CompareWithY, Mode.Immediate) else
  if byte = 0xc1 then some (Instruction.CompareWithAccumulator, Mode.XIndirect) else
  if byte = 0xc4 then some (Instruction.CompareWithY, Mode.ZeroPage) else
  if byte = 0xc5 then some (Instruction.CompareWithAccumulator, Mode.ZeroPage) else
  if byte = 0xc6 then some (Instruction.Decrement, Mode.ZeroPage) else
  if byte = 0xc8 then some (Instruction.IncrementY, Mode.Implied) else
  if byte = 0xc9 then some (Instruction.CompareWithAccumulator, Mode.Immediate) else
  if byte = 0xca then some (Instruction.DecrementX, Mode.Implied) else
  if byte = 0xcc then some (Instruction.CompareWithY, Mode.Absolute) else
  if byte = 0xcd then some (Instruction.CompareWithAccumulator, Mode.Absolute) else
  if byte = 0xce then some (Instruction.Decrement, Mode.Absolute) else
  if byte = 0xd0 then some (Instruction.BranchIfNotEqual, Mode.Relative) else
  if byte = 0xd1 then some (Instruction.CompareWithAccumulator, Mode.IndirectY) else
  if byte = 0xd5 then some (Instruction.CompareWithAccumulator, Mode.ZeroPageX) else
  if byte = 0xd6 then some (Instruction.Decrement, Mode.ZeroPageX) else
  if byte = 0xd8 then some (Instruction.ClearDecimal, Mode.Implied) else
  if byte = 0xd9 then some (Instruction.CompareWithAccumulator, Mode.AbsoluteY) else
  if byte = 0xdd then some (Instruction.CompareWithAccumulator, Mode.AbsoluteX) else
  if byte = 0xde then some (Instruction.Decrement, Mode.AbsoluteX) else
  if byte = 0xe0 then some (Instruction.CompareWithX, Mode.Immediate) else
  if byte = 0xe1 then some (Instruction.SubtractWithCarry, Mode.XIndirect) else
  if byte = 0xe4 then some (Instruction.CompareWithX, Mode.ZeroPage) else
  if byte = 0xe5 then some (Instruction.SubtractWithCarry, Mode.ZeroPage) else
  if byte = 0xe6 then some (Instruction.Increment, Mode.ZeroPage) else
  if byte = 0xe8 then some (Instruction.IncrementX, Mode.Implied) else
  if byte = 0xe9 then some (Instruction.SubtractWithCarry, Mode.Immediate) else
  if byte = 0xea then some (Instruction.NoOperation, Mode.Implied) else
  if byte = 0xec then some (Instruction.CompareWithX, Mode.Absolute) else
  if byte = 0xed then some (Instruction.SubtractWithCarry, Mode.Absolute) else
  if byte = 0xee then some (Instruction.Increment, Mode.Absolute) else
  if byte = 0xf0 then some (Instruction.BranchIfEqual, Mode.Relative) else
  if byte = 0xf1 then some (Instruction.SubtractWithCarry, Mode.IndirectY) else
  if byte = 0xf5 then some (Instruction.SubtractWithCarry, Mode.ZeroPageX) else
  if byte = 0xf6 then some (Instruction.Increment, Mode.ZeroPageX) else
  if byte = 0xf8 then some (Instruction.SetDecimal, Mode.Implied) else
  if byte = 0xf9 then some (Instruction.SubtractWithCarry, Mode.AbsoluteY) else
  if byte = 0xfd then some (Instruction.SubtractWithCarry, Mode.AbsoluteX) else
  if byte = 0xfe then some (Instruction.Increment, Mode.AbsoluteX) else
  none

/-- CPU::step, from src/lib.rs: zero the cycle counter, fetch the opcode
byte at PC, decode it, dispatch, and return the accumulated cycles together
with the new state.  An unassigned opcode or an in-dispatch panic yields
`none`. -/
def CPU.step (cpu : CPU) : Option (CPU × Nat) :=
  let cpu := { cpu with cycles := 0 }
  let (address, cpu) := cpu.read_byte_and_increment_pc
  match decode address with
  | none => none
  | some (instruction, mode) =>
    match cpu.execute instruction mode with
    | none => none
    | some cpu => some (cpu, cpu.cycles)

/-- The cycle count returned by a successful step. -/
def CPU.stepCycles (cpu : CPU) : Option Nat :=
  (cpu.step).map Prod.snd

/-- CPU::reset_to, from src/lib.rs: rebuild registers and flags from their
defaults, then set the accumulator and program counter arguments. -/
def CPU.reset_to (cpu : CPU) (program_counter : Nat) (accumulator : Nat) : CPU :=
  let cpu := { cpu with registers := Registers.new, status_flags := StatusFlags.new }
  let cpu := { cpu with registers := { cpu.registers with accumulator := accumulator } }
  { cpu with registers := { cpu.registers with program_counter := program_counter } }

/-- A concrete machine about to execute an immediate-operand instruction:
PC = 0x0200, the operand byte there is 0x01, A = 0xFF, all flags clear.
This is the input of boundary case B2 of the spec (ADC with A = 0xFF, C = 0). -/
def adcState : CPU where
  registers := { program_counter := 0x0200, stack_pointer := 0xff,
                 accumulator := 0xff, x := 0, y := 0 }
  status_flags := StatusFlags.new
  memory := fun a => if a = 0x0200 then 0x01 else 0x00
  cycles := 0

/-- A concrete machine with SP = 0x00, everything else zeroed. -/
def pushState : CPU where
  registers := { program_counter := 0, stack_pointer := 0x00,
                 accumulator := 0, x := 0, y := 0 }
  status_flags := StatusFlags.new
  memory := fun _ => 0
  cycles := 0

/-- A concrete machine with A = 0x01 and all flags clear. -/
def rolState : CPU where
  registers := { program_counter := 0, stack_pointer := 0xff,
                 accumulator := 0x01, x := 0, y := 0 }
  status_flags := StatusFlags.new
  memory := fun _ => 0
  cycles := 0

/-- A concrete machine about to execute JMP Indirect: the operand word at
PC = 0x1000 is 0x0200; memory holds 0x34 at 0x0200, 0x12 at 0x0201 (the
little-endian word 0x1234 at imm16) and 0x56 at 0x0001. -/
def jmpIndirectState : CPU where
  registers := { program_counter := 0x1000, stack_pointer := 0xff,
                 accumulator := 0, x := 0, y := 0 }
  status_flags := StatusFlags.new
  memory := fun a =>
    if a = 0x1000 then 0x00 else if a = 0x1001 then 0x02
    else if a = 0x0200 then 0x34 else if a = 0x0201 then 0x12
    else if a = 0x0001 then 0x56 else 0
  cycles := 0

/-- A concrete machine with A = 0x01, all flags clear. -/
def rorState : CPU where
  registers := { program_counter := 0, stack_pointer := 0xff,
                 accumulator := 0x01, x := 0, y := 0 }
  status_flags := StatusFlags.new
  memory := fun _ => 0
  cycles := 0

/-- A concrete machine with A = 0x80, all flags clear. -/
def aslState : CPU where
  registers := { program_counter := 0, stack_pointer := 0xff,
                 accumulator := 0x80, x := 0, y := 0 }
  status_flags := StatusFlags.new
  memory := fun _ => 0
  cycles := 0

/-- Opcode-table pairs for which the dispatch guarantees at least 2 cycles:
everything except Break (which adds no cycles) and a store routed to the
Accumulator write path (which the canonical opcode table never produces). -/
def goodPair (i : Instruction) (m : Mode) : Bool :=
  match i with
  | Instruction.Break => false
  | Instruction.StoreAccumulator => !(m == Mode.Accumulator)
  | Instruction.StoreX => !(m == Mode.Accumulator)
  | Instruction.StoreY => !(m == Mode.Accumulator)
  | _ => true

/-- decode only produces pairs with the 2-cycle guarantee, apart from the
BRK opcode 0x00. -/
def decodeGood (b : Nat) : Bool :=
  match decode b with
  | none => true
  | some (i, m) => b == 0 || goodPair i m

/-- A concrete machine whose whole memory is the BRK opcode 0x00. -/
def brkState : CPU where
  registers := { program_counter := 0x0200, stack_pointer := 0xff,
                 accumulator := 0, x := 0, y := 0 }
  status_flags := StatusFlags.new
  memory := fun _ => 0x00
  cycles := 0

/-- A concrete machine whose whole memory is the NOP opcode 0xEA. -/
def nopState : CPU where
  registers := { program_counter := 0x0200, stack_pointer := 0xff,
                 accumulator := 0, x := 0, y := 0 }
  status_flags := StatusFlags.new
  memory := fun _ => 0xea
  cycles := 0

/-- A concrete machine just after fetching a JSR opcode located at 0x01FE:
PC = 0x01FF (the operand bytes sit at 0x01FF and 0x0200, inside and next to
the stack page), SP = 0xFF, and the operand word encodes the target 0x0300. -/
def jsrClobberState : CPU where
  registers := { program_counter := 0x01ff, stack_pointer := 0xff,
                 accumulator := 0, x := 0, y := 0 }
  status_flags := StatusFlags.new
  memory := fun a => if a = 0x01ff then 0x00 else if a = 0x0200 then 0x03 else 0
  cycles := 0

/-- The memory of the C8 witness machine: a JSR operand word at
0x0200/0x0201 encoding the target 0x0300, zero elsewhere. -/
def jsrWitnessMem : Nat → Nat := fun a2 =>
  if a2 = 0x0200 then 0x00 else if a2 = 0x0201 then 0x03 else 0

/-- C1: evaluating the code at the failing input of boundary case B2.
Executing ADC with immediate operand 0x01, A = 0xFF and C = 0 leaves the
accumulator at 0xFF (the AddWithCarry arm never writes it), sets C = 1, and
computes Z = 0 and N = 1 from the pre-update accumulator, then V = C xor N
= 0 — whereas the claim requires A = 0x00 and Z = 1. -/
theorem adc_b2_bug :
    (adcState.execute Instruction.AddWithCarry Mode.Immediate).map
      (fun s => (s.registers.accumulator, s.status_flags.carry, s.status_flags.zero,
                 s.status_flags.negative, s.status_flags.overflow))
      = some (0xff, true, false, true, false) := by decide

/-- C2: evaluating the code at the failing input of boundary case B6.
A push at SP = 0x00 does write the byte to 0x0100, but the stack pointer
saturates at 0x00 instead of wrapping to 0xFF as the claim requires. -/
theorem push_at_sp_zero_saturates :
    (pushState.push 0xab).read_byte 0x0100 = 0xab ∧
    (pushState.push 0xab).registers.stack_pointer = 0x00 := by decide

/-- C3: evaluating the code at the failing input A = 0x01, C = 0.
Executing ROL in Accumulator mode yields A = 0x00 with C = 1 and Z = 1: the
RotateLeft arm shifts RIGHT, takes the carry from bit 0, and feeds the prior
carry into bit 7 — whereas the claim (a left rotate) requires A = 0x02, C = 0. -/
theorem rol_rotates_right_bug :
    (rolState.execute Instruction.RotateLeft Mode.Accumulator).map
      (fun s => (s.registers.accumulator, s.status_flags.carry, s.status_flags.zero))
      = some (0x00, true, true) := by decide

/-- C4: evaluating the code at the failing input imm16 = 0x0200.
JMP Indirect does cost 5 cycles, but it sets PC to 0x5634, reading the high
byte from (imm16 + 1) AND 0xff = 0x0001 instead of from imm16 + 1 = 0x0201;
the claim requires PC = 0x1234. -/
theorem jmp_indirect_high_byte_bug :
    (jmpIndirectState.execute Instruction.Jump Mode.Indirect).map
      (fun s => (s.registers.program_counter, s.cycles))
      = some (0x5634, 5) := by decide

/-- C5: evaluating the code at the failing input (ROR in Accumulator mode,
A = 0x01).  The dispatch match of CPU::step has no RotateRight arm, so the
instruction falls into the catch-all panic; in the embedding execution
yields none instead of the rotate-right result the claim describes. -/
theorem ror_unimplemented_bug :
    rorState.execute Instruction.RotateRight Mode.Accumulator = none := rfl

/-- C6: evaluating the code at the failing input operand = 0x80.
ASL of 0x80 in Accumulator mode produces the 8-bit result 0x00 with C = 1 as
the claim says, but the zero flag is computed from the unmasked 16-bit temp
0x100, so Z = 0 — whereas the claim requires Z = 1. -/
theorem asl_zero_flag_bug :
    (aslState.execute Instruction.ArithmeticShiftLeft Mode.Accumulator).map
      (fun s => (s.registers.accumulator, s.status_flags.zero, s.status_flags.carry,
                 s.status_flags.negative))
      = some (0x00, false, true, false) := by decide

/-- C9: packing the eight status flags into a byte and unpacking restores
every flag state exactly, for all 256 combinations, and the packed byte uses
the canonical weights 0x01, 0x02, 0x04, 0x08, 0x10, 0x20, 0x40, 0x80 for
carry, zero, interrupt-disable, decimal, break, ignored, overflow, negative. -/
theorem status_flags_pack_unpack_roundtrip (f g : StatusFlags) :
    g.from_byte f.to_byte = f ∧
    f.to_byte = f.carry.toNat + 2 * f.zero.toNat + 4 * f.interrupt.toNat
      + 8 * f.decimal.toNat + 16 * f.brk.toNat + 32 * f.ignored.toNat
      + 64 * f.overflow.toNat + 128 * f.negative.toNat := by
  obtain ⟨c, z, i, d, b, g2, v, n⟩ := f
  cases c <;> cases z <;> cases i <;> cases d <;> cases b <;> cases g2 <;>
    cases v <;> cases n <;> exact ⟨rfl, rfl⟩

/-- C10: reset_to rebuilds the entire register file and flag set from the
defaults before applying its two arguments: afterwards PC and A hold the
arguments, X = Y = 0, SP = 0xFF, and all eight status flags are false,
whatever the previous state was. -/
theorem reset_to_rebuilds_full_state (cpu : CPU) (pc a : Nat) :
    (cpu.reset_to pc a).registers.program_counter = pc ∧
    (cpu.reset_to pc a).registers.accumulator = a ∧
    (cpu.reset_to pc a).registers.x = 0 ∧
    (cpu.reset_to pc a).registers.y = 0 ∧
    (cpu.reset_to pc a).registers.stack_pointer = 0xff ∧
    (cpu.reset_to pc a).status_flags.carry = false ∧
    (cpu.reset_to pc a).status_flags.zero = false ∧
    (cpu.reset_to pc a).status_flags.interrupt = false ∧
    (cpu.reset_to pc a).status_flags.decimal = false ∧
    (cpu.reset_to pc a).status_flags.brk = false ∧
    (cpu.reset_to pc a).status_flags.ignored = false ∧
    (cpu.reset_to pc a).status_flags.overflow = false ∧
    (cpu.reset_to pc a).status_flags.negative = false :=
  ⟨rfl, rfl, rfl, rfl, rfl, rfl, rfl, rfl, rfl, rfl, rfl, rfl, rfl⟩

/-- push never touches the cycle counter. -/
theorem push_cycles (cpu : CPU) (v : Nat) : (cpu.push v).cycles = cpu.cycles := by
  simp only [CPU.push, CPU.write_memory]
  split <;> rfl

/-- pop never touches the cycle counter. -/
theorem pop_cycles (cpu : CPU) : (cpu.pop).2.cycles = cpu.cycles := by
  simp only [CPU.pop]
  split <;> rfl

/-- write_memory never touches the cycle counter. -/
theorem write_memory_cycles (cpu : CPU) (a v : Nat) :
    (cpu.write_memory a v).cycles = cpu.cycles := rfl

/-- Every implemented read-path addressing mode adds at least 2 cycles. -/
theorem get_address_cycles (cpu : CPU) (m : Mode) (v : Nat) (cpu' : CPU)
    (h : cpu.get_address m = some (v, cpu')) : cpu.cycles + 2 ≤ cpu'.cycles := by
  cases m <;>
    simp [CPU.get_address, CPU.read_byte_and_increment_pc, CPU.increment_pc] at h <;>
    obtain ⟨h1, h2⟩ := h <;>
    subst h2 <;>
    (try split) <;> simp <;> omega

/-- The write-back path never decreases the cycle counter. -/
theorem set_address_cycles (cpu : CPU) (m : Mode) (v : Nat) (cpu' : CPU)
    (h : cpu.set_address m v = some cpu') : cpu.cycles ≤ cpu'.cycles := by
  cases m <;> simp only [CPU.set_address] at h <;>
    (try exact Option.noConfusion h) <;>
    obtain rfl := Option.some.inj h <;>
    (try rw [write_memory_cycles]) <;>
    (try split) <;> simp [write_memory_cycles]

/-- Every store addressing mode other than Accumulator adds at least
3 cycles. -/
theorem put_address_cycles (cpu : CPU) (m : Mode) (v : Nat) (cpu' : CPU)
    (h : cpu.put_address m v = some cpu') (hm : m ≠ Mode.Accumulator) :
    cpu.cycles + 3 ≤ cpu'.cycles := by
  cases m <;>
    first
    | exact absurd rfl hm
    | (simp [CPU.put_address, CPU.read_byte_and_increment_pc,
        CPU.increment_pc] at h <;> subst h <;> (try split) <;>
        simp [write_memory_cycles] <;> omega)

/-- A branch instruction adds at least 2 cycles (from the Immediate-mode
offset fetch), whether or not it is taken. -/
theorem branch_cycles (cpu : CPU) (c : Bool) :
    cpu.cycles + 2 ≤ (cpu.branch c).cycles := by
  simp only [CPU.branch, CPU.get_address, CPU.read_byte_and_increment_pc, CPU.increment_pc]
  repeat' split
  all_goals simp

/-- Every dispatch of a goodPair instruction that completes consumes at
least 2 cycles. -/
theorem execute_cycles (cpu : CPU) (i : Instruction) (m : Mode) (cpu' : CPU)
    (h : cpu.execute i m = some cpu') (hg : goodPair i m = true) :
    cpu.cycles + 2 ≤ cpu'.cycles := by
  cases i
  case AddWithCarry =>
    simp only [CPU.execute] at h
    split at h
    · exact Option.noConfusion h
    · rename_i val c2 hG
      obtain rfl := Option.some.inj h
      have hc := get_address_cycles _ _ _ _ hG
      simp
      omega
  case AndWithAccumulator =>
    simp only [CPU.execute] at h
    split at h
    · exact Option.noConfusion h
    · rename_i val c2 hG
      obtain rfl := Option.some.inj h
      have hc := get_address_cycles _ _ _ _ hG
      simp
      omega
  case ArithmeticShiftLeft =>
    simp only [CPU.execute] at h
    split at h
    · exact Option.noConfusion h
    · rename_i val c2 hG
      split at h
      · exact Option.noConfusion h
      · rename_i c3 hS
        obtain rfl := Option.some.inj h
        have hc := get_address_cycles _ _ _ _ hG
        have hs := set_address_cycles _ _ _ _ hS
        simp at hs ⊢
        omega
  case BranchIfCarryClear =>
    simp only [CPU.execute] at h
    obtain rfl := Option.some.inj h
    exact branch_cycles cpu _
  case BranchIfCarrySet =>
    simp only [CPU.execute] at h
    obtain rfl := Option.some.inj h
    exact branch_cycles cpu _
  case BranchIfEqual =>
    simp only [CPU.execute] at h
    obtain rfl := Option.some.inj h
    exact branch_cycles cpu _
  case BitSet =>
    simp only [CPU.execute] at h
    split at h
    · exact Option.noConfusion h
    · rename_i val c2 hG
      obtain rfl := Option.some.inj h
      have hc := get_address_cycles _ _ _ _ hG
      simp
      omega
  case BranchIfMinus =>
    simp only [CPU.execute] at h
    obtain rfl := Option.some.inj h
    exact branch_cycles cpu _
  case BranchIfNotEqual =>
    simp only [CPU.execute] at h
    obtain rfl := Option.some.inj h
    exact branch_cycles cpu _
  case BranchIfPlus =>
    simp only [CPU.execute] at h
    obtain rfl := Option.some.inj h
    exact branch_cycles cpu _
  case Break =>
    exact absurd hg (by simp [goodPair])
  case BranchIfOverflowClear =>
    simp only [CPU.execute] at h
    obtain rfl := Option.some.inj h
    exact branch_cycles cpu _
  case BranchIfOverflowSet =>
    simp only [CPU.execute] at h
    obtain rfl := Option.some.inj h
    exact branch_cycles cpu _
  case ClearCarry =>
    simp only [CPU.execute] at h
    obtain rfl := Option.some.inj h
    simp
  case ClearDecimal =>
    simp only [CPU.execute] at h
    obtain rfl := Option.some.inj h
    simp
  case ClearInterrupt =>
    simp only [CPU.execute] at h
    obtain rfl := Option.some.inj h
    simp
  case ClearOverflow =>
    simp only [CPU.execute] at h
    obtain rfl := Option.some.inj h
    simp
  case CompareWithAccumulator =>
    simp only [CPU.execute] at h
    split at h
    · exact Option.noConfusion h
    · rename_i val c2 hG
      obtain rfl := Option.some.inj h
      have hc := get_address_cycles _ _ _ _ hG
      simp
      omega
  case CompareWithX =>
    simp only [CPU.execute] at h
    split at h
    · exact Option.noConfusion h
    · rename_i val c2 hG
      obtain rfl := Option.some.inj h
      have hc := get_address_cycles _ _ _ _ hG
      simp
      omega
  case CompareWithY =>
    simp only [CPU.execute] at h
    split at h
    · exact Option.noConfusion h
    · rename_i val c2 hG
      obtain rfl := Option.some.inj h
      have hc := get_address_cycles _ _ _ _ hG
      simp
      omega
  case Decrement =>
    simp only [CPU.execute] at h
    split at h
    · exact Option.noConfusion h
    · rename_i val c2 hG
      split at h
      · exact Option.noConfusion h
      · rename_i c3 hS
        obtain rfl := Option.some.inj h
        have hc := get_address_cycles _ _ _ _ hG
        have hs := set_address_cycles _ _ _ _ hS
        simp at hs ⊢
        omega
  case DecrementX =>
    simp only [CPU.execute] at h
    obtain rfl := Option.some.inj h
    simp
  case DecrementY =>
    simp only [CPU.execute] at h
    obtain rfl := Option.some.inj h
    simp
  case ExclusiveOrWithAccumulator =>
    simp only [CPU.execute] at h
    split at h
    · exact Option.noConfusion h
    · rename_i val c2 hG
      obtain rfl := Option.some.inj h
      have hc := get_address_cycles _ _ _ _ hG
      simp
      omega
  case Increment =>
    simp only [CPU.execute] at h
    split at h
    · exact Option.noConfusion h
    · rename_i val c2 hG
      split at h
      · exact Option.noConfusion h
      · rename_i c3 hS
        obtain rfl := Option.some.inj h
        have hc := get_address_cycles _ _ _ _ hG
        have hs := set_address_cycles _ _ _ _ hS
        simp at hs ⊢
        omega
  case IncrementX =>
    simp only [CPU.execute] at h
    obtain rfl := Option.some.inj h
    simp
  case IncrementY =>
    simp only [CPU.execute] at h
    obtain rfl := Option.some.inj h
    simp
  case Jump =>
    simp only [CPU.execute, CPU.read_byte_and_increment_pc, CPU.increment_pc] at h
    split at h <;>
      first
      | exact Option.noConfusion h
      | (obtain rfl := Option.some.inj h; simp; try omega)
  case JumpSubroutine =>
    simp only [CPU.execute, CPU.read_byte_and_increment_pc, CPU.increment_pc] at h
    obtain rfl := Option.some.inj h
    simp [push_cycles]
    try omega
  case LoadAccumulator =>
    simp only [CPU.execute] at h
    split at h
    · exact Option.noConfusion h
    · rename_i val c2 hG
      obtain rfl := Option.some.inj h
      have hc := get_address_cycles _ _ _ _ hG
      simp
      omega
  case LoadX =>
    simp only [CPU.execute] at h
    split at h
    · exact Option.noConfusion h
    · rename_i val c2 hG
      obtain rfl := Option.some.inj h
      have hc := get_address_cycles _ _ _ _ hG
      simp
      omega
  case LoadY =>
    simp only [CPU.execute] at h
    split at h
    · exact Option.noConfusion h
    · rename_i val c2 hG
      obtain rfl := Option.some.inj h
      have hc := get_address_cycles _ _ _ _ hG
      simp
      omega
  case LogicalShiftRight =>
    simp only [CPU.execute] at h
    split at h
    · exact Option.noConfusion h
    · rename_i val c2 hG
      split at h
      · exact Option.noConfusion h
      · rename_i c3 hS
        obtain rfl := Option.some.inj h
        have hc := get_address_cycles _ _ _ _ hG
        have hs := set_address_cycles _ _ _ _ hS
        simp at hs ⊢
        omega
  case NoOperation =>
    simp only [CPU.execute] at h
    obtain rfl := Option.some.inj h
    simp
  case OrWithAccumulator =>
    simp only [CPU.execute] at h
    split at h
    · exact Option.noConfusion h
    · rename_i val c2 hG
      obtain rfl := Option.some.inj h
      have hc := get_address_cycles _ _ _ _ hG
      simp
      omega
  case PushAccumulator =>
    simp only [CPU.execute] at h
    obtain rfl := Option.some.inj h
    simp [push_cycles]
    try omega
  case PushProcessorStatus =>
    simp only [CPU.execute] at h
    obtain rfl := Option.some.inj h
    simp [push_cycles]
    try omega
  case PullAccumulator =>
    simp only [CPU.execute, CPU.pop, CPU.read_byte] at h
    obtain rfl := Option.some.inj h
    (try split) <;> simp <;> try omega
  case PullProcessorStatus =>
    simp only [CPU.execute, CPU.pop, CPU.read_byte] at h
    obtain rfl := Option.some.inj h
    (try split) <;> simp <;> try omega
  case RotateLeft =>
    simp only [CPU.execute] at h
    split at h
    · exact Option.noConfusion h
    · rename_i val c2 hG
      split at h
      · exact Option.noConfusion h
      · rename_i c3 hS
        obtain rfl := Option.some.inj h
        have hc := get_address_cycles _ _ _ _ hG
        have hs := set_address_cycles _ _ _ _ hS
        simp at hs ⊢
        omega
  case RotateRight =>
    simp only [CPU.execute] at h
    exact Option.noConfusion h
  case ReturnFromInterrupt =>
    simp only [CPU.execute, CPU.pop, CPU.read_byte] at h
    obtain rfl := Option.some.inj h
    repeat' split
    all_goals (simp; try omega)
  case ReturnFromSubroutine =>
    simp only [CPU.execute, CPU.pop, CPU.read_byte] at h
    obtain rfl := Option.some.inj h
    repeat' split
    all_goals (simp; try omega)
  case SubtractWithCarry =>
    simp only [CPU.execute] at h
    split at h
    · exact Option.noConfusion h
    · rename_i val c2 hG
      obtain rfl := Option.some.inj h
      have hc := get_address_cycles _ _ _ _ hG
      simp
      omega
  case SetCarry =>
    simp only [CPU.execute] at h
    obtain rfl := Option.some.inj h
    simp
  case SetDecimal =>
    simp only [CPU.execute] at h
    obtain rfl := Option.some.inj h
    simp
  case SetInterruptDisable =>
    simp only [CPU.execute] at h
    obtain rfl := Option.some.inj h
    simp
  case StoreAccumulator =>
    simp only [CPU.execute] at h
    have hm : m ≠ Mode.Accumulator := by simpa [goodPair] using hg
    have hp := put_address_cycles _ _ _ _ h hm
    omega
  case StoreX =>
    simp only [CPU.execute] at h
    have hm : m ≠ Mode.Accumulator := by simpa [goodPair] using hg
    have hp := put_address_cycles _ _ _ _ h hm
    omega
  case StoreY =>
    simp only [CPU.execute] at h
    have hm : m ≠ Mode.Accumulator := by simpa [goodPair] using hg
    have hp := put_address_cycles _ _ _ _ h hm
    omega
  case TransferAccumulatorToX =>
    simp only [CPU.execute] at h
    obtain rfl := Option.some.inj h
    simp
  case TransferAccumulatorToY =>
    simp only [CPU.execute] at h
    obtain rfl := Option.some.inj h
    simp
  case TransferStackPointerToX =>
    simp only [CPU.execute] at h
    obtain rfl := Option.some.inj h
    simp
  case TransferXToAccumulator =>
    simp only [CPU.execute] at h
    obtain rfl := Option.some.inj h
    simp
  case TransferXToStackPointer =>
    simp only [CPU.execute] at h
    obtain rfl := Option.some.inj h
    simp
  case TransferYToAccumulator =>
    simp only [CPU.execute] at h
    obtain rfl := Option.some.inj h
    simp

set_option maxRecDepth 100000 in
theorem decode_all_good_list : ((List.range 256).all fun b => decodeGood b) = true := by decide

theorem decodeGood_of_lt (b : Nat) (hb : b < 256) : decodeGood b = true := by
  have h := decode_all_good_list
  rw [List.all_eq_true] at h
  exact h b (List.mem_range.mpr hb)

set_option maxRecDepth 8192 in
/-- C7 counterexample: at a state about to execute BRK, step completes and
returns 0 cycles, so the claimed bound of at least 2 cycles for every
completed step, BRK included, is false. -/
theorem step_brk_counterexample :
    ¬ (∀ c : Nat, brkState.stepCycles = some c → 2 ≤ c) := by
  intro hall
  have h0 := hall 0 (by decide)
  omega

/-- C7 amended: if step completes, the returned cycle count is at least 2
unless the fetched opcode byte is 0x00 (BRK), in which case it is 0. -/
theorem step_cycle_floor (cpu : CPU) (c : Nat) (h : cpu.stepCycles = some c) :
    (cpu.read_byte cpu.registers.program_counter = 0 → c = 0) ∧
    (cpu.read_byte cpu.registers.program_counter ≠ 0 → 2 ≤ c) := by
  simp only [CPU.stepCycles, CPU.step, CPU.read_byte_and_increment_pc, CPU.read_byte] at h ⊢
  set B := cpu.memory (cpu.registers.program_counter % 65536) % 256 with hB
  have hblt : B < 256 := by rw [hB]; omega
  rcases hd : decode B with _ | p
  · rw [hd] at h
    simp at h
  · rw [hd] at h
    split at h
    · rename_i hE
      exact Option.noConfusion hE
    · rename_i i m hE
      obtain rfl := Option.some.inj hE
      split at h
      · simp at h
      · rename_i c2 hX
        simp at h
        constructor
        · intro hB0
          rw [hB0] at hd
          have hd0 : decode 0 = some (Instruction.Break, Mode.Implied) := by decide
          rw [hd0] at hd
          obtain ⟨hi, hm⟩ : Instruction.Break = i ∧ Mode.Implied = m := by
            have h2 := Option.some.inj hd
            exact ⟨congrArg Prod.fst h2, congrArg Prod.snd h2⟩
          subst hi
          subst hm
          simp only [CPU.execute] at hX
          obtain rfl := Option.some.inj hX
          simp [CPU.increment_pc] at h
          omega
        · intro hBne
          have hgood := decodeGood_of_lt B hblt
          simp only [decodeGood, hd] at hgood
          simp [hBne] at hgood
          have hcyc := execute_cycles _ i m c2 hX hgood
          simp [CPU.increment_pc] at hcyc
          omega

set_option maxRecDepth 8192 in
/-- C7 witness: stepping the NOP machine consumes exactly 2 cycles,
discharging the amended bound at a concrete input with a nonzero opcode. -/
theorem step_cycle_floor_witness :
    (nopState.read_byte nopState.registers.program_counter = 0 → (2 : Nat) = 0) ∧
    (nopState.read_byte nopState.registers.program_counter ≠ 0 → 2 ≤ (2 : Nat)) :=
  step_cycle_floor nopState 2 (by decide)

theorem and_ffff (n : Nat) : n &&& 0xffff = n % 65536 := by
  have h := Nat.and_pow_two_sub_one_eq_mod n 16
  norm_num at h
  exact h

theorem and_ff (n : Nat) : n &&& 0xff = n % 256 := by
  have h := Nat.and_pow_two_sub_one_eq_mod n 8
  norm_num at h
  exact h

theorem mod_or_div (x : Nat) : x % 256 ||| (x / 256) <<< 8 = x := by
  have h256 : (2 : Nat) ^ 8 = 256 := by norm_num
  have hb : x % 256 < 2 ^ 8 := by
    rw [h256]
    omega
  rw [Nat.shiftLeft_eq, Nat.lor_comm, Nat.mul_comm]
  rw [← Nat.mul_add_lt_is_or hb (x / 256)]
  rw [h256]
  omega

/-- C8 amended: provided SP lies between 2 and 0xFF and neither operand
byte of the JSR sits at the two stack cells written by its pushes
(0x0100+SP and 0x00FF+SP), a JSR — taken here from the state just after its
opcode fetch, with PC = q pointing at the operand — pushes the high then
low byte of (return address − 1) = q + 1, leaves SP at SP − 2, and sets PC
to the little-endian target word; a subsequent RTS pops low then high and
sets PC to the popped word + 1 = q + 2 (mod 2^16), the instruction after
the JSR, with SP restored. -/
theorem jsr_rts_roundtrip (mem : Nat → Nat) (q sp a x y cyc : Nat) (f : StatusFlags)
    (hq : q < 65536) (hsp2 : 2 ≤ sp) (hspf : sp ≤ 0xff)
    (h1 : q ≠ 0x100 + sp) (h2 : q ≠ 0xff + sp)
    (h3 : (q + 1) % 65536 ≠ 0x100 + sp) (h4 : (q + 1) % 65536 ≠ 0xff + sp) :
    ((CPU.execute ⟨⟨q, sp, a, x, y⟩, f, mem, cyc⟩ Instruction.JumpSubroutine Mode.Absolute).bind
      (fun s1 => (s1.execute Instruction.ReturnFromSubroutine Mode.Implied).map
        (fun s2 =>
          (s1.registers.program_counter,
           s1.memory (0x100 + sp), s1.memory (0xff + sp), s1.registers.stack_pointer,
           s2.registers.program_counter, s2.registers.stack_pointer))))
    = some ((mem q % 256) ||| ((mem ((q + 1) % 65536) % 256) <<< 8),
            (q + 1) % 65536 / 256, (q + 1) % 256, sp - 2,
            (q + 2) % 65536, sp) := by
  have p8 : (2 : Nat) ^ 8 = 256 := by norm_num
  have e1 : (0x100 + sp) % 65536 = 0x100 + sp := by omega
  have e2 : (0x100 + (sp - 1)) % 65536 = 0xff + sp := by omega
  have e3 : q % 65536 = q := by omega
  have hg1 : 0 < sp := by omega
  have hg2 : 0 < sp - 1 := by omega
  have hg3 : sp - 1 - 1 < 0xff := by omega
  have hg4 : sp - 1 - 1 + 1 < 0xff := by omega
  have e4 : 0x100 + (sp - 1 - 1 + 1) = 0xff + sp := by omega
  have e5 : 0x100 + (sp - 1 - 1 + 1 + 1) = 0x100 + sp := by omega
  have e6 : (q + 1) % 65536 % 65536 = (q + 1) % 65536 := by omega
  have e7 : (q + 1) % 256 % 256 = (q + 1) % 256 := by omega
  have e8 : (q + 1) % 65536 / 256 % 256 = (q + 1) % 65536 / 256 := by omega
  have e9 : (0xff + sp) % 65536 = 0xff + sp := by omega
  have h5 : (0x100 + sp : Nat) ≠ 0xff + sp := by omega
  have e12 : (q + 1) % 256 ||| ((q + 1) % 65536 / 256) <<< 8 = (q + 1) % 65536 := by
    have h := mod_or_div ((q + 1) % 65536)
    have e11 : (q + 1) % 65536 % 256 = (q + 1) % 256 := by omega
    rwa [e11] at h
  have e13 : ((q + 1) % 65536 + 1) % 65536 = (q + 2) % 65536 := by omega
  have e14 : sp - 1 - 1 + 1 + 1 = sp := by omega
  have e15 : sp - 1 - 1 = sp - 2 := by omega
  have hg3b : sp - 2 < 0xff := by omega
  have hg4b : sp - 2 + 1 < 0xff := by omega
  have e4b : 0x100 + (sp - 2 + 1) = 0xff + sp := by omega
  have e5b : 0x100 + (sp - 2 + 1 + 1) = 0x100 + sp := by omega
  have e14b : sp - 2 + 1 + 1 = sp := by omega
  simp only [CPU.execute, CPU.push, CPU.write_memory, CPU.pop, CPU.read_byte,
    CPU.read_byte_and_increment_pc, CPU.increment_pc, Option.bind, Option.map,
    and_ffff, and_ff, Nat.shiftRight_eq_div_pow, p8,
    e1, e2, e3, e4, e5, e6, e7, e8, e9, e12, e13, e14, e15,
    hg3b, hg4b, e4b, e5b, e14b,
    hg1, hg2, hg3, hg4, h1, h2, h3, h4, h5,
    if_true, if_false, ite_true, ite_false]

/-- C8 counterexample: the JSR pushes write to 0x01FF and 0x01FE before the
operand bytes are read, clobbering the target low byte at 0x01FF, so PC ends
at 0x0302 instead of the stored target 0x0300 — the claim fails for this
starting PC and memory contents. -/
theorem jsr_clobber_counterexample :
    (jsrClobberState.execute Instruction.JumpSubroutine Mode.Absolute).map
      (fun s => s.registers.program_counter) = some 0x0302 ∧
    (0x0302 : Nat) ≠ 0x0300 := by decide

/-- C8 witness: the round trip at PC = 0x0200 (operand address), SP = 0xFF:
JSR stores 0x02 and 0x01 (the bytes of return − 1 = 0x0201), jumps to
0x0300, and RTS comes back to 0x0202 with SP restored to 0xFF. -/
theorem jsr_rts_roundtrip_witness :
    ((CPU.execute ⟨⟨0x0200, 0xff, 0, 0, 0⟩, StatusFlags.new, jsrWitnessMem, 0⟩
        Instruction.JumpSubroutine Mode.Absolute).bind
      (fun s1 => (s1.execute Instruction.ReturnFromSubroutine Mode.Implied).map
        (fun s2 =>
          (s1.registers.program_counter,
           s1.memory (0x100 + 0xff), s1.memory (0xff + 0xff), s1.registers.stack_pointer,
           s2.registers.program_counter, s2.registers.stack_pointer))))
    = some (0x0300, 2, 1, 0xfd, 0x0202, 0xff) := by
  have h := jsr_rts_roundtrip jsrWitnessMem 0x0200 0xff 0 0 0 0 StatusFlags.new
    (by norm_num) (by norm_num) (by norm_num) (by norm_num) (by norm_num)
    (by norm_num) (by norm_num)
  simpa [jsrWitnessMem] using h

end Mos6510
